import Mathlib

/-!
Shallow embedding of the vocabulator tutorial engine.

The definitions below translate the tutorial-related Rust code of the
repository: the step catalog, tutorial state and validation algorithm from
`src/core/tutorial.rs`, the session data from `src/core/session.rs`, the
tutorial screen event handler from `src/ui/screens/tutorial.rs`, and the
auto-advance tick of the event loop from `src/ui/run.rs`.

Conventions of the embedding:
* `Instant` timestamps are modelled as natural numbers (seconds); the
  current time is passed explicitly as a `now` parameter wherever the code
  calls `Instant::now()`, and `elapsed` becomes truncated subtraction.
* Fallible slice indexing is modelled with `List.get?`; an operation that
  could panic returns `Option`, with `none` standing for a panic, so that
  panic-freedom is a provable statement.
* The persisted tutorial-completion flag (read and written through the
  database module) is modelled as a boolean field of `App`.
-/

set_option linter.all false

/-- Key codes, from the crossterm `KeyCode` enum as used by the program.
Only the variants the tutorial code inspects are distinguished; all other
keys are represented by `Char` with some character. Modifiers are ignored
because the tutorial code only ever matches on `key.code`. -/
inductive KeyCode where
  | Down
  | Up
  | Enter
  | Esc
  | Char (c : Char)
deriving DecidableEq

/-- A vocabulary word record, from `db/models` as used by
`create_sample_session` and the session code. -/
structure Word where
  id : Int
  word : String
  definition : String
  group_id : Int
  marked : Bool
  last_seen : Option Nat
  times_seen : Nat
  success_count : Nat
deriving DecidableEq

/-- Session type enum from `src/core/session.rs` (`Type` in the source;
renamed because `Type` is reserved in Lean). -/
inductive SessionType where
  | Group
  | Marked
  | Weak
  | Custom
deriving DecidableEq

/-- Practice session, from `src/core/session.rs` (the field `sesison_type`
keeps the source's spelling). -/
structure Session where
  words : List Word
  index : Nat
  sesison_type : SessionType
  show_definition : Bool
  graded : Option Bool
  input_buffer : String
  insert_mode : Bool
deriving DecidableEq

/-- Modelled from the spec: `create_sample_session` calls
`Session::new(words, index, type)`, but that constructor lives in
repository code that is not under `src/` (only the `Session` struct and its
methods are). Per the spec, a session is the ordered word list plus a
current index and transient UI flags (`show_definition`, `graded`), which
start cleared; the doc comment of `create_sample_session` states the
session starts at the given index 0. -/
def Session.new (words : List Word) (index : Nat) (t : SessionType) : Session :=
  { words := words
    index := index
    sesison_type := t
    show_definition := false
    graded := none
    input_buffer := ""
    insert_mode := false }

/-- `SAMPLE_WORDS` from `src/core/tutorial.rs`. -/
def SAMPLE_WORDS : List (String × String) :=
  [ ("ephemeral", "lasting for a very short time")
  , ("ubiquitous", "present, appearing, or found everywhere")
  , ("serendipity", "the occurrence of events by chance in a happy way")
  , ("eloquent", "fluent or persuasive in speaking or writing")
  , ("pragmatic", "dealing with things sensibly and realistically") ]

/-- `create_sample_session` from `src/core/tutorial.rs`: sample words with
ids -1, -2, -3, ..., group id -1, unmarked, zeroed statistics. -/
def create_sample_session : Session :=
  let sample_words : List Word :=
    SAMPLE_WORDS.enum.map (fun p =>
      { id := -((p.1 : Int) + 1)
        word := p.2.1
        definition := p.2.2
        group_id := -1
        marked := false
        last_seen := none
        times_seen := 0
        success_count := 0 })
  Session.new sample_words 0 SessionType.Group

/-- Tutorial state, from `src/core/tutorial.rs`; `step_entered_at` keeps an
`Option Nat` timestamp in place of `Option<Instant>`. -/
structure TutorialState where
  current_step : Nat
  total_steps : Nat
  sample_session : Option Session
  completed_actions : List String
  exit_requested : Bool
  step_entered_at : Option Nat
deriving DecidableEq

/-- Screens of the application, from `src/ui/app.rs`. -/
inductive Screen where
  | Menu
  | Practice
  | Test
  | TutorialPrompt
  | Tutorial
deriving DecidableEq

/-- Menu actions, from `src/ui/app.rs`. -/
inductive MenuAction where
  | Session (t : SessionType)
  | RestartTutorial
  | Exit
deriving DecidableEq

/-- Application state, from `src/ui/app.rs`. The database connection field
is replaced by `tutorial_completed`, the single persisted boolean the
tutorial engine reads and writes through it (the database module is not
under `src/`; the spec describes it as a get/set boolean flag). -/
structure App where
  current_screen : Screen
  menu_items : List MenuAction
  selected : Nat
  should_quit : Bool
  session : Option Session
  error : Option String
  tutorial_state : Option TutorialState
  tutorial_completed : Bool
deriving DecidableEq

/-- Validation criteria of a tutorial step, from `src/core/tutorial.rs`.
`StateCondition` carries the predicate; it returns `Option Bool` so that an
out-of-bounds access inside a predicate would surface as `none`. -/
inductive StepValidation where
  | KeyPress (expected : KeyCode)
  | MenuSelection (expected : Nat)
  | StateCondition (cond : App → TutorialState → Option Bool)

/-- Highlight targets, from `src/core/tutorial.rs`. -/
inductive HighlightTarget where
  | MenuOption (i : Nat)
  | KeyHint (label : String)

/-- A tutorial step descriptor, from `src/core/tutorial.rs`. -/
structure TutorialStep where
  id : Nat
  instruction : String
  hint : Option String
  validation : StepValidation
  highlight : Option HighlightTarget

/-- Step 4 condition from the catalog: always false (the step auto-advances
through the event handler instead). -/
def step4_condition : App → TutorialState → Option Bool :=
  fun _app _state => some false

/-- Step 6 condition from the catalog: the closure returns `true`
unconditionally (the source comment says a key check will override it). -/
def step6_condition : App → TutorialState → Option Bool :=
  fun _app _state => some true

/-- Step 7 condition from the catalog: the current sample-session word is
marked; guarded against a missing session and an out-of-range index. -/
def step7_condition : App → TutorialState → Option Bool :=
  fun _app state =>
    match state.sample_session with
    | none => some false
    | some session =>
        if session.index < session.words.length then
          (session.words.get? session.index).map (fun w => w.marked)
        else
          some false

/-- Step 8 condition from the catalog: the current sample-session word is
unmarked; guarded like step 7. -/
def step8_condition : App → TutorialState → Option Bool :=
  fun _app state =>
    match state.sample_session with
    | none => some false
    | some session =>
        if session.index < session.words.length then
          (session.words.get? session.index).map (fun w => !w.marked)
        else
          some false

/-- Step 10 condition from the catalog: the sample session has advanced to
word index 1 or higher. -/
def step10_condition : App → TutorialState → Option Bool :=
  fun _app state =>
    match state.sample_session with
    | none => some false
    | some session => some (decide (1 ≤ session.index))

/-- Step 11 condition from the catalog: the sample session has advanced to
word index 2 or higher. -/
def step11_condition : App → TutorialState → Option Bool :=
  fun _app state =>
    match state.sample_session with
    | none => some false
    | some session => some (decide (2 ≤ session.index))

/-- `TUTORIAL_STEPS` from `src/core/tutorial.rs`: the 14-step catalog. -/
def TUTORIAL_STEPS : List TutorialStep :=
  [ { id := 0
      instruction := "Welcome to Vocabulator! This tutorial will teach you how to use the app. Press Enter to continue."
      hint := some ("Press the Enter key to proceed.")
      validation := StepValidation.KeyPress KeyCode.Enter
      highlight := none }
  , { id := 1
      instruction := "Use the Down arrow or 'j' key to move down in the menu. Try it now."
      hint := some ("Press Down arrow or 'j' to move the selection down.")
      validation := StepValidation.KeyPress KeyCode.Down
      highlight := some (HighlightTarget.MenuOption 1) }
  , { id := 2
      instruction := "Use the Up arrow or 'k' key to move up. Try moving back up."
      hint := some ("Press Up arrow or 'k' to move the selection up.")
      validation := StepValidation.KeyPress KeyCode.Up
      highlight := some (HighlightTarget.MenuOption 0) }
  , { id := 3
      instruction := "Press Enter to select 'Continue Learning' and start a practice session."
      hint := some ("Make sure 'Continue Learning' is highlighted, then press Enter.")
      validation := StepValidation.MenuSelection 0
      highlight := some (HighlightTarget.MenuOption 0) }
  , { id := 4
      instruction := "You see a vocabulary word. Try to recall its definition before revealing it."
      hint := some ("This message will auto-advance in 10 seconds, or press any key to continue.")
      validation := StepValidation.StateCondition step4_condition
      highlight := none }
  , { id := 5
      instruction := "Press 's' to show the definition."
      hint := some ("Press the 's' key to reveal the definition.")
      validation := StepValidation.KeyPress (KeyCode.Char 's')
      highlight := some (HighlightTarget.KeyHint ("s")) }
  , { id := 6
      instruction := "Grade yourself honestly. Press 'y' if you knew it, or 'n' if you didn't."
      hint := some ("Press 'y' for correct or 'n' for incorrect.")
      validation := StepValidation.StateCondition step6_condition
      highlight := some (HighlightTarget.KeyHint ("y/n")) }
  , { id := 7
      instruction := "Press 'm' to bookmark this word. Bookmarked words show a star (*)."
      hint := some ("Press the 'm' key to toggle the bookmark.")
      validation := StepValidation.StateCondition step7_condition
      highlight := some (HighlightTarget.KeyHint ("m")) }
  , { id := 8
      instruction := "Press 'm' again to remove the bookmark."
      hint := some ("Press the 'm' key to toggle the bookmark off.")
      validation := StepValidation.StateCondition step8_condition
      highlight := some (HighlightTarget.KeyHint ("m")) }
  , { id := 9
      instruction := "Bookmarked words can be reviewed later! Use 'Review Marks' from the main menu to practice only your bookmarked words. Press Enter to continue."
      hint := some ("Press Enter to continue learning about the app.")
      validation := StepValidation.KeyPress KeyCode.Enter
      highlight := none }
  , { id := 10
      instruction := "Press Enter to move to the next word."
      hint := some ("Press the Enter key to advance to the next word.")
      validation := StepValidation.StateCondition step10_condition
      highlight := some (HighlightTarget.KeyHint ("Enter")) }
  , { id := 11
      instruction := "Practice with a few more words using 's', 'y'/'n', 'm', and Enter as you like."
      hint := some ("Use the practice controls freely. Advance to at least 2 more words to continue.")
      validation := StepValidation.StateCondition step11_condition
      highlight := none }
  , { id := 12
      instruction := "Press 'q' or Escape to return to the main menu."
      hint := some ("Press 'q' or Escape to exit the practice session.")
      validation := StepValidation.KeyPress (KeyCode.Char 'q')
      highlight := some (HighlightTarget.KeyHint ("q")) }
  , { id := 13
      instruction := "Great job! You've learned the basics. There's also a Test mode where you type the word from the definition. Your progress auto-saves. Press Enter to finish."
      hint := some ("Press Enter to complete the tutorial.")
      validation := StepValidation.KeyPress KeyCode.Enter
      highlight := none } ]

/-- `init_tutorial` from `src/core/tutorial.rs`; `now` stands for
`Instant::now()`. -/
def init_tutorial (now : Nat) : TutorialState :=
  { current_step := 0
    total_steps := TUTORIAL_STEPS.length
    sample_session := some create_sample_session
    completed_actions := []
    exit_requested := false
    step_entered_at := some now }

/-- `get_current_step` from `src/core/tutorial.rs`: clamped catalog lookup.
The result is an `Option` because the Rust function indexes a slice; `none`
would mean a panic. -/
def get_current_step (state : TutorialState) : Option TutorialStep :=
  TUTORIAL_STEPS.get? (min state.current_step (TUTORIAL_STEPS.length - 1))

/-- The alternate-key table of `validate_and_advance` (the nested `match`
on `(expected, pressed)` pairs, including the id-6 guard). -/
def key_alternative (step_id : Nat) (expected : KeyCode) (key : KeyCode) : Bool :=
  match expected, key with
  | KeyCode.Down, KeyCode.Char 'j' => true
  | KeyCode.Up, KeyCode.Char 'k' => true
  | KeyCode.Char 'q', KeyCode.Esc => true
  | KeyCode.Char 'y', KeyCode.Char 'n' => step_id == 6
  | KeyCode.Char 'n', KeyCode.Char 'y' => step_id == 6
  | _, _ => false

/-- The `is_valid` computation of `validate_and_advance`, one arm per
`StepValidation` variant. -/
def eval_validation (step : TutorialStep) (app : App) (state : TutorialState)
    (key : KeyCode) : Option Bool :=
  match step.validation with
  | StepValidation.KeyPress expected =>
      some (if key = expected then true else key_alternative step.id expected key)
  | StepValidation.MenuSelection expected =>
      some (if key = KeyCode.Enter then app.selected == expected else false)
  | StepValidation.StateCondition cond => cond app state

/-- Generic fallback hint of `validate_and_advance`. -/
def TRY_AGAIN : String := "Try again."

/-- Values of `ValidationResult` from `src/core/tutorial.rs`. -/
inductive ValidationResult where
  | Valid
  | Invalid (hint : String)
  | Complete
deriving DecidableEq

/-- `validate_and_advance` from `src/core/tutorial.rs`. Returns the
validation result together with the updated state; `now` stands for
`Instant::now()` at the timestamp reset. -/
def validate_and_advance (state : TutorialState) (app : App) (key : KeyCode)
    (now : Nat) : Option (ValidationResult × TutorialState) :=
  if TUTORIAL_STEPS.length ≤ state.current_step then
    some (ValidationResult.Complete, state)
  else
    (get_current_step state).bind (fun current_step =>
      (eval_validation current_step app state key).map (fun is_valid =>
        if is_valid then
          let state2 : TutorialState :=
            { state with
                current_step := state.current_step + 1
                step_entered_at := some now }
          if TUTORIAL_STEPS.length ≤ state2.current_step then
            (ValidationResult.Complete, state2)
          else
            (ValidationResult.Valid, state2)
        else
          (ValidationResult.Invalid (current_step.hint.getD TRY_AGAIN), state)))

/-- `should_auto_advance` from `src/core/tutorial.rs`. -/
def should_auto_advance (state : TutorialState) (now : Nat) : Bool :=
  if state.current_step ≠ 4 then
    false
  else
    match state.step_entered_at with
    | some entered_at => decide (10 ≤ now - entered_at)
    | none => false

/-- The auto-advance check of the event loop in `src/ui/run.rs`: on the
tutorial screen, when `should_auto_advance` holds, jump to step 5 and reset
the timestamp and the error message. -/
def auto_advance_tick (app : App) (now : Nat) : App :=
  if app.current_screen = Screen.Tutorial then
    match app.tutorial_state with
    | some ts =>
        if should_auto_advance ts now then
          { app with
              tutorial_state := some ({ ts with
                current_step := 5
                step_entered_at := some now })
              error := none }
        else app
    | none => app
  else app

/-- The SHOW_CONGRATS marker string of `src/ui/screens/tutorial.rs`. -/
def SHOW_CONGRATS : String := "SHOW_CONGRATS"

/-- The menu-navigation block of `handle_event` in
`src/ui/screens/tutorial.rs` (active during steps 1-3, with wrap-around on
the menu items); the or-patterns of the source's `match` on the key are
written as an if-chain over key equalities. -/
def menu_nav (app : App) (current_step : Nat) (key : KeyCode) : App :=
  if 1 ≤ current_step ∧ current_step ≤ 3 then
    if key = KeyCode.Down ∨ key = KeyCode.Char 'j' then
      if app.selected < app.menu_items.length - 1 then
        { app with selected := app.selected + 1 }
      else
        { app with selected := 0 }
    else if key = KeyCode.Up ∨ key = KeyCode.Char 'k' then
      if 0 < app.selected then
        { app with selected := app.selected - 1 }
      else
        { app with selected := app.menu_items.length - 1 }
    else app
  else app

/-- The guarded in-place update `words[i].marked = !words[i].marked` of the
bookmark branch. -/
def set_marked_toggled (words : List Word) (i : Nat) : List Word :=
  match words.get? i with
  | some w => words.set i ({ w with marked := !w.marked })
  | none => words

/-- The practice-key forwarding block of `handle_event` in
`src/ui/screens/tutorial.rs` (active during steps 5-8 and 10-12): keys m,
s, y, n and Enter mutate the sample session. -/
def forward_practice_key (ts : TutorialState) (current_step : Nat)
    (key : KeyCode) : TutorialState :=
  if (5 ≤ current_step ∧ current_step ≤ 8) ∨
      (10 ≤ current_step ∧ current_step ≤ 12) then
    if key = KeyCode.Char 'm' then
      match ts.sample_session with
      | some session =>
          if session.index < session.words.length then
            { ts with sample_session := some ({ session with
                words := set_marked_toggled session.words session.index }) }
          else ts
      | none => ts
    else if key = KeyCode.Char 's' then
      match ts.sample_session with
      | some session =>
          { ts with sample_session := some ({ session with show_definition := true }) }
      | none => ts
    else if key = KeyCode.Char 'y' then
      match ts.sample_session with
      | some session =>
          { ts with sample_session := some ({ session with graded := some true }) }
      | none => ts
    else if key = KeyCode.Char 'n' then
      match ts.sample_session with
      | some session =>
          { ts with sample_session := some ({ session with graded := some false }) }
      | none => ts
    else if key = KeyCode.Enter then
      match ts.sample_session with
      | some session =>
          if session.index < session.words.length - 1 then
            { ts with sample_session := some ({ session with
                index := session.index + 1
                show_definition := false
                graded := none }) }
          else ts
      | none => ts
    else ts
  else ts

/-- `handle_event` from `src/ui/screens/tutorial.rs`, the tutorial screen's
input router: congratulations/exit-confirmation dialogs, the quit key, the
step-4 short-circuit, menu navigation, practice-key forwarding, and finally
the call into `validate_and_advance` (with the tutorial state taken out of
the app, as the source does). On `Complete` it sets the persisted
completion flag, re-uses `exit_requested` for the congratulations dialog
and appends the SHOW_CONGRATS marker. `handle_event_with` is the body of
the handler once the tutorial state has been found present; the or-patterns
of the source's exit-confirmation `match` are written as an if-chain. -/
def handle_event_with (ts : TutorialState) (app : App) (key : KeyCode)
    (now : Nat) : Option App :=
  if ts.exit_requested then
    if ts.completed_actions.contains SHOW_CONGRATS then
      some ({ app with tutorial_state := none, current_screen := Screen.Menu })
    else if key = KeyCode.Char 'y' ∨ key = KeyCode.Char 'Y' then
      some ({ app with tutorial_state := none, current_screen := Screen.Menu })
    else if key = KeyCode.Char 'n' ∨ key = KeyCode.Char 'N' ∨ key = KeyCode.Esc then
      some ({ app with tutorial_state := some ({ ts with exit_requested := false }) })
    else
      some app
  else if key = KeyCode.Char 'q' ∨ key = KeyCode.Esc then
    some ({ app with tutorial_state := some ({ ts with exit_requested := true }) })
  else if ts.current_step = 4 then
    some ({ app with
        tutorial_state := some ({ ts with
          current_step := 5
          step_entered_at := some now })
        error := none })
  else
    let app1 := menu_nav app ts.current_step key
    let ts1 := forward_practice_key ts ts.current_step key
    let app2 := { app1 with tutorial_state := none }
    (validate_and_advance ts1 app2 key now).map (fun r =>
      match r.1 with
      | ValidationResult.Valid =>
          { app2 with error := none, tutorial_state := some r.2 }
      | ValidationResult.Invalid hint =>
          { app2 with error := some hint, tutorial_state := some r.2 }
      | ValidationResult.Complete =>
          { app2 with
              tutorial_completed := true
              tutorial_state := some ({ r.2 with
                exit_requested := true
                completed_actions := r.2.completed_actions ++ [SHOW_CONGRATS] }) })

/-- Entry point of the tutorial screen handler: with no tutorial state it
returns to the menu, otherwise it runs `handle_event_with` on the state. -/
def handle_event (app : App) (key : KeyCode) (now : Nat) : Option App :=
  match app.tutorial_state with
  | none => some ({ app with current_screen := Screen.Menu })
  | some ts => handle_event_with ts app key now

/-- When the tutorial state is present, `handle_event` is its body
`handle_event_with` on that state. -/
theorem handle_event_eq_with (app : App) (ts : TutorialState) (key : KeyCode) (now : Nat)
    (h : app.tutorial_state = some ts) :
    handle_event app key now = handle_event_with ts app key now := by
  unfold handle_event
  rw [h]

/-- Every validation rule in the catalog evaluates without a panic: the
`StateCondition` predicates guard the missing-session and out-of-range
cases, so `eval_validation` always returns `some`. -/
theorem eval_validation_isSome (step : TutorialStep) (hstep : step ∈ TUTORIAL_STEPS)
    (app : App) (state : TutorialState) (key : KeyCode) :
    (eval_validation step app state key).isSome = true := by
  fin_cases hstep <;>
    simp only [eval_validation, step4_condition, step6_condition, step7_condition,
      step8_condition, step10_condition, step11_condition, Option.isSome_some] <;>
    (cases hs : state.sample_session with
     | none => rfl
     | some session =>
        simp only []
        first
        | rfl
        | (split
           · rename_i hidx
             rw [List.get?_eq_get hidx]
             rfl
           · rfl))

/-- `validate_and_advance` always returns a result (models: it never
panics), for every state, app, key and time. -/
theorem validate_and_advance_isSome (state : TutorialState) (app : App) (key : KeyCode)
    (now : Nat) : (validate_and_advance state app key now).isSome = true := by
  unfold validate_and_advance
  split
  · rfl
  · rename_i hge
    have h1 : min state.current_step (TUTORIAL_STEPS.length - 1) < TUTORIAL_STEPS.length := by
      have : 0 < TUTORIAL_STEPS.length := by decide
      omega
    have hstep := List.get?_eq_get h1
    have hmem : TUTORIAL_STEPS.get ⟨_, h1⟩ ∈ TUTORIAL_STEPS := List.get_mem _ _ _
    rw [show get_current_step state = some (TUTORIAL_STEPS.get ⟨_, h1⟩) from hstep]
    rw [Option.some_bind]
    obtain ⟨b, hb⟩ := Option.isSome_iff_exists.mp
      (eval_validation_isSome _ hmem app state key)
    rw [hb, Option.map_some']
    rfl

/-- The state after `validate_and_advance` is either unchanged or the
one-step advance that bumps `current_step` and resets the timestamp. -/
theorem validate_and_advance_state_cases (state : TutorialState) (app : App) (key : KeyCode)
    (now : Nat) (r : ValidationResult) (state2 : TutorialState)
    (h : validate_and_advance state app key now = some (r, state2)) :
    state2 = state ∨
      state2 = { state with
        current_step := state.current_step + 1
        step_entered_at := some now } := by
  unfold validate_and_advance at h
  split at h
  · left
    simp only [Option.some.injEq, Prod.mk.injEq] at h
    exact h.2.symm
  · cases hg : get_current_step state with
    | none => rw [hg] at h; simp at h
    | some step =>
        rw [hg, Option.some_bind] at h
        cases he : eval_validation step app state key with
        | none => rw [he] at h; simp at h
        | some b =>
            rw [he, Option.map_some'] at h
            simp only [Option.some.injEq] at h
            cases b with
            | false =>
                left
                simp only [Bool.false_eq_true, if_false] at h
                exact congrArg Prod.snd h.symm
            | true =>
                right
                simp only [if_true] at h
                split at h
                · exact congrArg Prod.snd h.symm
                · exact congrArg Prod.snd h.symm

/-- A concrete application state for witnesses (the menu of `App.new`,
nothing selected, no session). -/
def sample_app : App :=
  { current_screen := Screen.Tutorial
    menu_items := [MenuAction.Session SessionType.Group, MenuAction.Session SessionType.Marked,
      MenuAction.Session SessionType.Weak, MenuAction.RestartTutorial, MenuAction.Exit]
    selected := 0
    should_quit := false
    session := none
    error := none
    tutorial_state := none
    tutorial_completed := false }

/-- A freshly initialised tutorial advanced to step `n`. -/
def tutorial_at (n : Nat) : TutorialState :=
  { init_tutorial 0 with current_step := n }

/-- C9: `validate_and_advance` is total and never panics for every
`TutorialState`, including states where the sample session is absent or its
index is out of range: every catalog predicate guards these cases, so the
Option-valued embedding (where `none` stands for a panic) always returns
`some`. -/
theorem c9_validate_and_advance_total (state : TutorialState) (app : App) (key : KeyCode)
    (now : Nat) : (validate_and_advance state app key now).isSome = true :=
  validate_and_advance_isSome state app key now

/-- C4: for every state with `current_step` at or beyond the catalog
length, `get_current_step` returns the last catalog entry (the clamped
lookup succeeds, no out-of-bounds access) and `validate_and_advance`
returns `Complete` with the state unchanged in every field. -/
theorem c4_out_of_range_clamps_and_completes (state : TutorialState) (app : App)
    (key : KeyCode) (now : Nat) (hge : TUTORIAL_STEPS.length ≤ state.current_step) :
    get_current_step state = TUTORIAL_STEPS.get? (TUTORIAL_STEPS.length - 1) ∧
    validate_and_advance state app key now = some (ValidationResult.Complete, state) := by
  constructor
  · unfold get_current_step
    have : min state.current_step (TUTORIAL_STEPS.length - 1) = TUTORIAL_STEPS.length - 1 := by
      omega
    rw [this]
  · unfold validate_and_advance
    rw [if_pos hge]

/-- Witness for C4 at the concrete state with the step counter at 20. -/
theorem c4_witness :
    TUTORIAL_STEPS.length ≤ (tutorial_at 20).current_step ∧
    (get_current_step (tutorial_at 20) = TUTORIAL_STEPS.get? (TUTORIAL_STEPS.length - 1) ∧
      validate_and_advance (tutorial_at 20) sample_app KeyCode.Enter 0 =
        some (ValidationResult.Complete, tutorial_at 20)) :=
  ⟨by decide, c4_out_of_range_clamps_and_completes (tutorial_at 20) sample_app KeyCode.Enter 0
    (by decide)⟩

/-- C1 (divergence witness): at step 6 the code returns `Valid` and
advances to step 7 for the keys y and n as the claim says, but ALSO for an
arbitrary other key such as x, because the catalog entry of step 6 is a
`StateCondition` that returns true unconditionally; the y/n special case in
the `KeyPress` arm of `validate_and_advance` is unreachable. The claim (any
other key yields `Invalid` with a hint and an unchanged step) is what the
source comments intend, so this is a bug in the code. -/
theorem c1_step6_any_key_gives_valid :
    validate_and_advance (tutorial_at 6) sample_app (KeyCode.Char 'x') 1 =
      some (ValidationResult.Valid,
        { tutorial_at 6 with current_step := 7, step_entered_at := some 1 }) ∧
    validate_and_advance (tutorial_at 6) sample_app (KeyCode.Char 'y') 1 =
      some (ValidationResult.Valid,
        { tutorial_at 6 with current_step := 7, step_entered_at := some 1 }) ∧
    validate_and_advance (tutorial_at 6) sample_app (KeyCode.Char 'n') 1 =
      some (ValidationResult.Valid,
        { tutorial_at 6 with current_step := 7, step_entered_at := some 1 }) :=
  ⟨rfl, rfl, rfl⟩

/-- C5: for every state below the catalog length whose current step
validation rule is satisfied, `validate_and_advance` increments
`current_step` by exactly one, resets the step-entry timestamp to now, and
returns `Valid`, except when the incremented step reaches the catalog
length, in which case it returns `Complete`. -/
theorem c5_satisfied_rule_advances (state : TutorialState) (app : App) (key : KeyCode)
    (now : Nat) (step : TutorialStep)
    (hlt : state.current_step < TUTORIAL_STEPS.length)
    (hstep : get_current_step state = some step)
    (heval : eval_validation step app state key = some true) :
    validate_and_advance state app key now =
      some ((if state.current_step + 1 = TUTORIAL_STEPS.length then ValidationResult.Complete
             else ValidationResult.Valid),
        { state with current_step := state.current_step + 1, step_entered_at := some now }) := by
  unfold validate_and_advance
  rw [if_neg (by omega), hstep, Option.some_bind, heval, Option.map_some']
  dsimp only
  by_cases hc : TUTORIAL_STEPS.length ≤ state.current_step + 1
  · have h2 : state.current_step + 1 = TUTORIAL_STEPS.length := by omega
    rw [if_pos hc, if_pos h2]
    rfl
  · have h2 : ¬state.current_step + 1 = TUTORIAL_STEPS.length := by omega
    rw [if_neg hc, if_neg h2]
    rfl

/-- When the current step rule evaluates to false,
`validate_and_advance` returns `Invalid` with the step hint (or the
generic fallback) and the state unchanged. -/
theorem validate_eval_false (state : TutorialState) (app : App) (key : KeyCode)
    (now : Nat) (step : TutorialStep)
    (hlt : state.current_step < TUTORIAL_STEPS.length)
    (hstep : get_current_step state = some step)
    (heval : eval_validation step app state key = some false) :
    validate_and_advance state app key now =
      some (ValidationResult.Invalid (step.hint.getD TRY_AGAIN), state) := by
  unfold validate_and_advance
  rw [if_neg (by omega), hstep, Option.some_bind, heval, Option.map_some']
  simp

/-- C6: for every state below the catalog length whose current step
validation rule is not satisfied by the key and app state,
`validate_and_advance` returns `Invalid` carrying the step hint text (or
the generic fallback when the step has no hint) and leaves the
`TutorialState` unchanged in every field. -/
theorem c6_unsatisfied_rule_invalid_unchanged (state : TutorialState) (app : App) (key : KeyCode)
    (now : Nat) (step : TutorialStep)
    (hlt : state.current_step < TUTORIAL_STEPS.length)
    (hstep : get_current_step state = some step)
    (heval : eval_validation step app state key = some false) :
    validate_and_advance state app key now =
      some (ValidationResult.Invalid (step.hint.getD TRY_AGAIN), state) :=
  validate_eval_false state app key now step hlt hstep heval

/-- The step-0 catalog entry, spelled out for use in witnesses. -/
def step0ex : TutorialStep :=
  { id := 0
    instruction := "Welcome to Vocabulator! This tutorial will teach you how to use the app. Press Enter to continue."
    hint := some ("Press the Enter key to proceed.")
    validation := StepValidation.KeyPress KeyCode.Enter
    highlight := none }

/-- Witness for C5 at step 0 with the Enter key. -/
theorem c5_witness :
    validate_and_advance (tutorial_at 0) sample_app KeyCode.Enter 7 =
      some ((if (tutorial_at 0).current_step + 1 = TUTORIAL_STEPS.length then
              ValidationResult.Complete else ValidationResult.Valid),
        { tutorial_at 0 with
            current_step := (tutorial_at 0).current_step + 1
            step_entered_at := some 7 }) :=
  c5_satisfied_rule_advances (tutorial_at 0) sample_app KeyCode.Enter 7 step0ex
    (by decide) rfl rfl

/-- Witness for C6 at step 0 with the key x. -/
theorem c6_witness :
    validate_and_advance (tutorial_at 0) sample_app (KeyCode.Char 'x') 7 =
      some (ValidationResult.Invalid (step0ex.hint.getD TRY_AGAIN), tutorial_at 0) :=
  c6_unsatisfied_rule_invalid_unchanged (tutorial_at 0) sample_app (KeyCode.Char 'x') 7 step0ex
    (by decide) rfl rfl

/-- Practice-key forwarding never touches `current_step`. -/
theorem forward_practice_key_current_step (ts : TutorialState) (cs : Nat) (key : KeyCode) :
    (forward_practice_key ts cs key).current_step = ts.current_step := by
  unfold forward_practice_key
  repeat' split
  all_goals rfl

/-- C2 (amended): no single call of `validate_and_advance`, of the
tutorial event handler, or of the run loop auto-advance tick ever
decreases `current_step` or increases it by more than one. (The sole-mutator
half of the original claim fails: the step-4 short-circuit in the handler
and the auto-advance tick also set `current_step`, both from 4 to 5.) -/
theorem c2_amended_current_step_monotone (app : App) (key : KeyCode) (now : Nat)
    (ts ts2 : TutorialState) :
    (∀ r, validate_and_advance ts app key now = some (r, ts2) →
        ts.current_step ≤ ts2.current_step ∧ ts2.current_step ≤ ts.current_step + 1) ∧
    (∀ app2, app.tutorial_state = some ts → handle_event app key now = some app2 →
        app2.tutorial_state = some ts2 →
        ts.current_step ≤ ts2.current_step ∧ ts2.current_step ≤ ts.current_step + 1) ∧
    (app.tutorial_state = some ts → (auto_advance_tick app now).tutorial_state = some ts2 →
        ts.current_step ≤ ts2.current_step ∧ ts2.current_step ≤ ts.current_step + 1) := by
  refine ⟨?_, ?_, ?_⟩
  · intro r h
    rcases validate_and_advance_state_cases ts app key now r ts2 h with h2 | h2
    · rw [h2]
      exact ⟨Nat.le_refl _, Nat.le_succ _⟩
    · rw [h2]
      exact ⟨Nat.le_succ _, Nat.le_refl _⟩
  · intro app2 hts hev hts2
    rw [handle_event_eq_with app ts key now hts] at hev
    unfold handle_event_with at hev
    by_cases hex : ts.exit_requested = true
    · rw [if_pos hex] at hev
      by_cases hcon : ts.completed_actions.contains SHOW_CONGRATS = true
      · rw [if_pos hcon] at hev
        injection hev with h
        subst h
        simp at hts2
      · rw [if_neg hcon] at hev
        by_cases hy : key = KeyCode.Char 'y' ∨ key = KeyCode.Char 'Y'
        · rw [if_pos hy] at hev
          injection hev with h
          subst h
          simp at hts2
        · rw [if_neg hy] at hev
          by_cases hn : key = KeyCode.Char 'n' ∨ key = KeyCode.Char 'N' ∨ key = KeyCode.Esc
          · rw [if_pos hn] at hev
            injection hev with h
            subst h
            dsimp only at hts2
            injection hts2 with h3
            rw [← h3]
            exact ⟨Nat.le_refl _, Nat.le_succ _⟩
          · rw [if_neg hn] at hev
            injection hev with h
            subst h
            rw [hts] at hts2
            injection hts2 with h3
            rw [← h3]
            exact ⟨Nat.le_refl _, Nat.le_succ _⟩
    · rw [if_neg hex] at hev
      by_cases hq : key = KeyCode.Char 'q' ∨ key = KeyCode.Esc
      · rw [if_pos hq] at hev
        injection hev with h
        subst h
        dsimp only at hts2
        injection hts2 with h3
        rw [← h3]
        exact ⟨Nat.le_refl _, Nat.le_succ _⟩
      · rw [if_neg hq] at hev
        by_cases h4 : ts.current_step = 4
        · rw [if_pos h4] at hev
          injection hev with h
          subst h
          dsimp only at hts2
          injection hts2 with h3
          rw [← h3, h4]
          show (4 : Nat) ≤ 5 ∧ (5 : Nat) ≤ 4 + 1
          exact ⟨by omega, by omega⟩
        · rw [if_neg h4] at hev
          dsimp only at hev
          cases hval : validate_and_advance (forward_practice_key ts ts.current_step key)
              ({ menu_nav app ts.current_step key with tutorial_state := none }) key now with
          | none =>
              rw [hval] at hev
              simp at hev
          | some p =>
              rw [hval, Option.map_some'] at hev
              injection hev with h
              subst h
              have hfwd := forward_practice_key_current_step ts ts.current_step key
              have hcases := validate_and_advance_state_cases _ _ _ _ p.1 p.2 (by rw [hval])
              have hp : ts.current_step ≤ p.2.current_step ∧
                  p.2.current_step ≤ ts.current_step + 1 := by
                rcases hcases with h2 | h2
                · rw [h2, hfwd]
                  exact ⟨Nat.le_refl _, Nat.le_succ _⟩
                · rw [h2]
                  refine ⟨?_, ?_⟩
                  · show ts.current_step ≤
                      (forward_practice_key ts ts.current_step key).current_step + 1
                    rw [hfwd]
                    exact Nat.le_succ _
                  · show (forward_practice_key ts ts.current_step key).current_step + 1 ≤
                      ts.current_step + 1
                    rw [hfwd]
              cases hr : p.1 with
              | Valid =>
                  rw [hr] at hts2
                  dsimp only at hts2
                  injection hts2 with h3
                  rw [← h3]
                  exact hp
              | Invalid hint =>
                  rw [hr] at hts2
                  dsimp only at hts2
                  injection hts2 with h3
                  rw [← h3]
                  exact hp
              | Complete =>
                  rw [hr] at hts2
                  dsimp only at hts2
                  injection hts2 with h3
                  rw [← h3]
                  show ts.current_step ≤ p.2.current_step ∧
                    p.2.current_step ≤ ts.current_step + 1
                  exact hp
  · intro hts htick
    unfold auto_advance_tick at htick
    by_cases hscr : app.current_screen = Screen.Tutorial
    · rw [if_pos hscr, hts] at htick
      dsimp only at htick
      by_cases hadv : should_auto_advance ts now = true
      · rw [if_pos hadv] at htick
        have h4 : ts.current_step = 4 := by
          by_contra hne
          unfold should_auto_advance at hadv
          rw [if_pos hne] at hadv
          exact Bool.false_ne_true hadv
        dsimp only at htick
        injection htick with h3
        rw [← h3, h4]
        show (4 : Nat) ≤ 5 ∧ (5 : Nat) ≤ 4 + 1
        exact ⟨by omega, by omega⟩
      · rw [if_neg hadv] at htick
        rw [hts] at htick
        injection htick with h3
        rw [← h3]
        exact ⟨Nat.le_refl _, Nat.le_succ _⟩
    · rw [if_neg hscr] at htick
      rw [hts] at htick
      injection htick with h3
      rw [← h3]
      exact ⟨Nat.le_refl _, Nat.le_succ _⟩

/-- C2 (counterexample to the sole-mutator part): at step 4 the handler
sets `current_step` to 5 on Enter, while `validate_and_advance` on the very
same state and key returns `Invalid` and leaves `current_step` at 4 - so
the mutation did not come from `validate_and_advance`. -/
theorem c2_counterexample_step4_shortcut :
    (handle_event ({ sample_app with tutorial_state := some (tutorial_at 4) })
        KeyCode.Enter 5).map (fun a => a.tutorial_state.map TutorialState.current_step) =
      some (some 5) ∧
    validate_and_advance (tutorial_at 4) sample_app KeyCode.Enter 5 =
      some (ValidationResult.Invalid
        ("This message will auto-advance in 10 seconds, or press any key to continue."),
        tutorial_at 4) :=
  ⟨rfl, rfl⟩

/-- Witness for the amended C2, on its validate_and_advance part at
step 0. -/
theorem c2_amended_witness :
    (tutorial_at 0).current_step ≤
      ({ tutorial_at 0 with current_step := 1, step_entered_at := some 3 } :
        TutorialState).current_step ∧
    ({ tutorial_at 0 with current_step := 1, step_entered_at := some 3 } :
        TutorialState).current_step ≤ (tutorial_at 0).current_step + 1 :=
  (c2_amended_current_step_monotone sample_app KeyCode.Enter 3 (tutorial_at 0)
    ({ tutorial_at 0 with current_step := 1, step_entered_at := some 3 })).1
    ValidationResult.Valid rfl

/-- C3 (counterexample): at step 4 with exit confirmation not pending,
the quit key q does NOT set `current_step` to 5; it sets `exit_requested`
and leaves the step at 4, because the quit check precedes the step-4
short-circuit in the handler. -/
theorem c3_counterexample_quit_key_at_step4 :
    (handle_event ({ sample_app with tutorial_state := some (tutorial_at 4) })
        (KeyCode.Char 'q') 5).map
      (fun a => a.tutorial_state.map (fun t => (t.current_step, t.exit_requested))) =
      some (some (4, true)) :=
  rfl

/-- The step-4 catalog entry, spelled out for use in proofs. -/
def step4ex : TutorialStep :=
  { id := 4
    instruction := "You see a vocabulary word. Try to recall its definition before revealing it."
    hint := some ("This message will auto-advance in 10 seconds, or press any key to continue.")
    validation := StepValidation.StateCondition step4_condition
    highlight := none }

/-- C3 (amended): at step 4 with exit confirmation not pending, any key
OTHER than q or Escape makes the handler set `current_step` to 5, reset the
step-entry timestamp and clear the error, and this does not go through
`validate_and_advance`: on the same state and key, `validate_and_advance`
would return `Invalid` (the step-4 catalog condition is constantly false)
and leave the state unchanged. -/
theorem c3_amended_step4_shortcut (app : App) (ts : TutorialState) (key : KeyCode) (now : Nat)
    (hts : app.tutorial_state = some ts)
    (hstep : ts.current_step = 4)
    (hex : ts.exit_requested = false)
    (hq : ¬(key = KeyCode.Char 'q' ∨ key = KeyCode.Esc)) :
    handle_event app key now =
      some ({ app with
        tutorial_state := some ({ ts with current_step := 5, step_entered_at := some now })
        error := none }) ∧
    validate_and_advance ts app key now =
      some (ValidationResult.Invalid
        ("This message will auto-advance in 10 seconds, or press any key to continue."), ts) := by
  constructor
  · rw [handle_event_eq_with app ts key now hts]
    unfold handle_event_with
    rw [if_neg (by simp [hex]), if_neg hq, if_pos hstep]
  · have h1 : get_current_step ts = some step4ex := by
      unfold get_current_step
      rw [hstep]
      rfl
    have h2 : eval_validation step4ex app ts key = some false := rfl
    have h3 : ts.current_step < TUTORIAL_STEPS.length := by
      rw [hstep]
      decide
    exact validate_eval_false ts app key now step4ex h3 h1 h2

/-- Witness for the amended C3 at step 4 with the key x. -/
theorem c3_amended_witness :
    handle_event ({ sample_app with tutorial_state := some (tutorial_at 4) })
        (KeyCode.Char 'x') 9 =
      some ({ sample_app with
        tutorial_state := some ({ tutorial_at 4 with
          current_step := 5
          step_entered_at := some 9 })
        error := none }) ∧
    validate_and_advance (tutorial_at 4) ({ sample_app with
        tutorial_state := some (tutorial_at 4) }) (KeyCode.Char 'x') 9 =
      some (ValidationResult.Invalid
        ("This message will auto-advance in 10 seconds, or press any key to continue."),
        tutorial_at 4) :=
  c3_amended_step4_shortcut ({ sample_app with tutorial_state := some (tutorial_at 4) })
    (tutorial_at 4) (KeyCode.Char 'x') 9 rfl rfl rfl (by decide)

/-- C7: from any step with exit confirmation not pending, q or Escape
sets `exit_requested` without changing any other field (in particular
`current_step`); while pending with no completion marker logged, n, N and
Escape reset `exit_requested` only, y and Y discard the tutorial state and
return to the menu without touching the persisted completion flag (the
result record keeps `tutorial_completed` unchanged), and any other key
changes nothing. -/
theorem c7_exit_confirmation_protocol (app : App) (ts : TutorialState) (key : KeyCode)
    (now : Nat) (hts : app.tutorial_state = some ts) :
    (ts.exit_requested = false → key = KeyCode.Char 'q' ∨ key = KeyCode.Esc →
      handle_event app key now =
        some ({ app with tutorial_state := some ({ ts with exit_requested := true }) })) ∧
    (ts.exit_requested = true → ts.completed_actions.contains SHOW_CONGRATS = false →
      ((key = KeyCode.Char 'n' ∨ key = KeyCode.Char 'N' ∨ key = KeyCode.Esc →
          handle_event app key now =
            some ({ app with tutorial_state := some ({ ts with exit_requested := false }) })) ∧
        (key = KeyCode.Char 'y' ∨ key = KeyCode.Char 'Y' →
          handle_event app key now =
            some ({ app with tutorial_state := none, current_screen := Screen.Menu })) ∧
        (¬(key = KeyCode.Char 'y' ∨ key = KeyCode.Char 'Y') →
          ¬(key = KeyCode.Char 'n' ∨ key = KeyCode.Char 'N' ∨ key = KeyCode.Esc) →
          handle_event app key now = some app))) := by
  rw [handle_event_eq_with app ts key now hts]
  unfold handle_event_with
  refine ⟨?_, ?_⟩
  · intro hex hk
    rw [if_neg (by simp [hex]), if_pos hk]
  · intro hex hcon
    refine ⟨?_, ?_, ?_⟩
    · intro hk
      have hy : ¬(key = KeyCode.Char 'y' ∨ key = KeyCode.Char 'Y') := by
        rcases hk with h | h | h <;> subst h <;> decide
      rw [if_pos hex, if_neg (by rw [hcon]; exact Bool.false_ne_true), if_neg hy, if_pos hk]
    · intro hk
      rw [if_pos hex, if_neg (by rw [hcon]; exact Bool.false_ne_true), if_pos hk]
    · intro hy hn
      rw [if_pos hex, if_neg (by rw [hcon]; exact Bool.false_ne_true), if_neg hy, if_neg hn]

/-- Witness for C7: cancelling a pending exit confirmation with n. -/
theorem c7_witness :
    handle_event ({ sample_app with
        tutorial_state := some ({ tutorial_at 6 with exit_requested := true }) })
        (KeyCode.Char 'n') 0 =
      some ({ sample_app with
        tutorial_state := some ({ tutorial_at 6 with exit_requested := false }) }) :=
  (((c7_exit_confirmation_protocol ({ sample_app with
      tutorial_state := some ({ tutorial_at 6 with exit_requested := true }) })
      ({ tutorial_at 6 with exit_requested := true }) (KeyCode.Char 'n') 0 rfl).2)
    rfl rfl).1 (Or.inl rfl)

/-- C10: during the practice-like steps (ids 5-8 and 10-12) with exit
confirmation not pending, forwarding Enter leaves the sample session
`index`, `show_definition` and `graded` unchanged when the index already
points at the last word; the reset of `show_definition` and `graded`
happens exactly on the calls where the index advances. -/
theorem c10_enter_at_last_word_frame (app : App) (ts : TutorialState) (session : Session)
    (now : Nat)
    (hts : app.tutorial_state = some ts)
    (hex : ts.exit_requested = false)
    (hpr : (5 ≤ ts.current_step ∧ ts.current_step ≤ 8) ∨
        (10 ≤ ts.current_step ∧ ts.current_step ≤ 12))
    (hsess : ts.sample_session = some session) :
    ∃ app2 ts2 session2,
      handle_event app KeyCode.Enter now = some app2 ∧
      app2.tutorial_state = some ts2 ∧
      ts2.sample_session = some session2 ∧
      (session.index + 1 = session.words.length → session2 = session) ∧
      (session.index + 1 < session.words.length →
        session2 = { session with
          index := session.index + 1
          show_definition := false
          graded := none }) ∧
      (session2.index = session.index →
        session2.show_definition = session.show_definition ∧
        session2.graded = session.graded) := by
  have hfk : forward_practice_key ts ts.current_step KeyCode.Enter =
      (if session.index < session.words.length - 1 then
        { ts with sample_session := some ({ session with
            index := session.index + 1
            show_definition := false
            graded := none }) }
      else ts) := by
    unfold forward_practice_key
    rw [if_pos hpr, if_neg (by decide), if_neg (by decide), if_neg (by decide),
      if_neg (by decide), if_pos rfl, hsess]
  rw [handle_event_eq_with app ts KeyCode.Enter now hts]
  unfold handle_event_with
  rw [if_neg (by rw [hex]; exact Bool.false_ne_true), if_neg (by decide),
    if_neg (by rcases hpr with ⟨h1, h2⟩ | ⟨h1, h2⟩ <;> omega)]
  dsimp only
  obtain ⟨p, hval⟩ := Option.isSome_iff_exists.mp
    (validate_and_advance_isSome (forward_practice_key ts ts.current_step KeyCode.Enter)
      ({ menu_nav app ts.current_step KeyCode.Enter with tutorial_state := none })
      KeyCode.Enter now)
  rw [hval, Option.map_some']
  have hsp : p.2.sample_session =
      (forward_practice_key ts ts.current_step KeyCode.Enter).sample_session := by
    rcases validate_and_advance_state_cases _ _ _ _ p.1 p.2 (by rw [hval]) with h2 | h2 <;>
      rw [h2]
  rw [hfk] at hsp
  by_cases hidx : session.index < session.words.length - 1
  · rw [if_pos hidx] at hsp
    dsimp only at hsp
    cases hr : p.1 with
    | Valid =>
        dsimp only
        refine ⟨_, p.2, _, rfl, rfl, hsp, fun h => absurd h (by omega), fun _ => rfl,
          fun h => ?_⟩
        exfalso
        have h2 : session.index + 1 = session.index := h
        omega
    | Invalid hint =>
        dsimp only
        refine ⟨_, p.2, _, rfl, rfl, hsp, fun h => absurd h (by omega), fun _ => rfl,
          fun h => ?_⟩
        exfalso
        have h2 : session.index + 1 = session.index := h
        omega
    | Complete =>
        dsimp only
        refine ⟨_, { p.2 with
            exit_requested := true
            completed_actions := p.2.completed_actions ++ [SHOW_CONGRATS] }, _, rfl, rfl, ?_,
          fun h => absurd h (by omega), fun _ => rfl, fun h => ?_⟩
        · show p.2.sample_session = some _
          exact hsp
        · exfalso
          have h2 : session.index + 1 = session.index := h
          omega
  · rw [if_neg hidx] at hsp
    rw [hsess] at hsp
    cases hr : p.1 with
    | Valid =>
        dsimp only
        exact ⟨_, p.2, session, rfl, rfl, hsp, fun _ => rfl,
          fun h => absurd h (by omega), fun _ => ⟨rfl, rfl⟩⟩
    | Invalid hint =>
        dsimp only
        exact ⟨_, p.2, session, rfl, rfl, hsp, fun _ => rfl,
          fun h => absurd h (by omega), fun _ => ⟨rfl, rfl⟩⟩
    | Complete =>
        dsimp only
        refine ⟨_, { p.2 with
            exit_requested := true
            completed_actions := p.2.completed_actions ++ [SHOW_CONGRATS] }, session,
          rfl, rfl, ?_, fun _ => rfl, fun h => absurd h (by omega), fun _ => ⟨rfl, rfl⟩⟩
        show p.2.sample_session = some _
        exact hsp

/-- A sample session positioned on its last word, with transient flags
set. -/
def last_word_session : Session :=
  { create_sample_session with index := 4, show_definition := true, graded := some true }

/-- A tutorial state at step 10 holding `last_word_session`. -/
def ts10ex : TutorialState :=
  { tutorial_at 10 with sample_session := some last_word_session }

/-- Witness for C10 at step 10 with the session on its last word. -/
theorem c10_witness :
    ∃ app2 ts2 session2,
      handle_event ({ sample_app with tutorial_state := some ts10ex }) KeyCode.Enter 9 =
        some app2 ∧
      app2.tutorial_state = some ts2 ∧
      ts2.sample_session = some session2 ∧
      (last_word_session.index + 1 = last_word_session.words.length →
        session2 = last_word_session) ∧
      (last_word_session.index + 1 < last_word_session.words.length →
        session2 = { last_word_session with
          index := last_word_session.index + 1
          show_definition := false
          graded := none }) ∧
      (session2.index = last_word_session.index →
        session2.show_definition = last_word_session.show_definition ∧
        session2.graded = last_word_session.graded) :=
  c10_enter_at_last_word_frame ({ sample_app with tutorial_state := some ts10ex })
    ts10ex last_word_session 9 rfl rfl (by decide) rfl

/-- C8: `create_sample_session` returns exactly as many words as
`SAMPLE_WORDS`, all identifiers strictly negative and pairwise distinct,
every group tag -1, every marked flag false, zeroed statistics with no
last-seen timestamp, and session index 0. -/
theorem c8_create_sample_session_properties :
    create_sample_session.words.length = SAMPLE_WORDS.length ∧
    create_sample_session.words.all (fun w => decide (w.id < 0)) = true ∧
    (create_sample_session.words.map Word.id).Nodup ∧
    create_sample_session.words.all (fun w =>
      decide (w.group_id = -1) && !w.marked && decide (w.times_seen = 0) &&
      decide (w.success_count = 0) && decide (w.last_seen = none)) = true ∧
    create_sample_session.index = 0 := by
  decide
